import Mathlib

/-!
Shallow embedding of the MACDS core (multi-agent coding development system):
the evaluation system (`macds/core/evaluation.py`), the memory decay law
(`macds/core/memory.py`), the orchestrator's failure routing, escalation and
conflict resolution (`macds/core/orchestrator.py`), and the base agent's
contract-gated execute wrapper (`macds/agents/base.py`), together with
theorems settling the frozen claims about them.

Python floats are modelled as rationals (`ℚ`) where the code only adds,
subtracts, multiplies, divides, and compares, and as reals (`ℝ`) where the
code computes `0.5 ** x` for a real exponent (the memory decay law).
-/

namespace MACDS

/-! ## Evaluation system (`macds/core/evaluation.py`) -/

/-- `ScoreCategory` enum from `evaluation.py`. -/
inductive ScoreCategory
  | correctness
  | efficiency
  | compliance
  | cost
  | stability
deriving DecidableEq, Repr

/-- A score entry (`ScoreEntry`); only the fields that affect the claims.
The entry timestamps are modelled as all lying inside the 30-day
`get_average` window, which is how every entry created during a run is
observed by the code paths the claims quantify over. -/
structure ScoreEntry where
  category : ScoreCategory
  score : ℚ
deriving DecidableEq, Repr

/-- `AgentScorecard` from `evaluation.py`.  The Python per-category dict of
score lists is flattened to one list tagged by category; filtering by the
tag recovers each per-category list in insertion order. -/
structure AgentScorecard where
  scores : List ScoreEntry := []
  total_tasks : ℕ := 0
  successful_tasks : ℕ := 0
  failed_tasks : ℕ := 0
  escalations : ℕ := 0
  autonomy_level : ℚ := 1
deriving DecidableEq, Repr

/-- A freshly created scorecard (`AgentScorecard(agent_name=name)`): all
counters zero and `autonomy_level = 1.0`. -/
def freshScorecard : AgentScorecard := {}

/-- `AgentScorecard.get_average(category)`: mean of the entries of the
category, or the neutral 50.0 when there are none. -/
def getAverage (c : AgentScorecard) (cat : ScoreCategory) : ℚ :=
  let recent := c.scores.filter fun e => e.category == cat
  if recent.isEmpty then 50 else (recent.map (·.score)).sum / recent.length

/-- Category weights from `get_overall_score`. -/
def weight : ScoreCategory → ℚ
  | .correctness => 35 / 100
  | .efficiency => 15 / 100
  | .compliance => 25 / 100
  | .cost => 10 / 100
  | .stability => 15 / 100

/-- The category iteration order of the `weights` dict in
`get_overall_score`. -/
def allCategories : List ScoreCategory :=
  [.correctness, .efficiency, .compliance, .cost, .stability]

/-- `AgentScorecard.get_overall_score()`: weighted sum of the category
averages divided by the total weight (which is 1.0). -/
def getOverallScore (c : AgentScorecard) : ℚ :=
  let total := (allCategories.map fun k => getAverage c k * weight k).sum
  let total_weight := (allCategories.map weight).sum
  if total_weight > 0 then total / total_weight else 50

/-- `AgentScorecard.get_success_rate()`. -/
def getSuccessRate (c : AgentScorecard) : ℚ :=
  if c.total_tasks = 0 then 1 else (c.successful_tasks : ℚ) / (c.total_tasks : ℚ)

/-- `AgentScorecard.adjust_autonomy()`: +0.1 capped at 1.0 for high
performers, -0.2 floored at 0.2 for poor performers, otherwise unchanged. -/
def adjustAutonomy (c : AgentScorecard) : AgentScorecard :=
  if getOverallScore c ≥ 80 ∧ getSuccessRate c ≥ 9 / 10 then
    { c with autonomy_level := min 1 (c.autonomy_level + 1 / 10) }
  else if getOverallScore c < 50 ∨ getSuccessRate c < 7 / 10 then
    { c with autonomy_level := max (2 / 10) (c.autonomy_level - 2 / 10) }
  else c

/-- `AgentScorecard.record_success()`. -/
def recordSuccessCounter (c : AgentScorecard) : AgentScorecard :=
  { c with total_tasks := c.total_tasks + 1, successful_tasks := c.successful_tasks + 1 }

/-- `AgentScorecard.record_failure()`. -/
def recordFailureCounter (c : AgentScorecard) : AgentScorecard :=
  { c with total_tasks := c.total_tasks + 1, failed_tasks := c.failed_tasks + 1 }

/-- `EvaluationSystem.record_task_result` restricted to the one agent's
scorecard it mutates: bump the success/failure counters, append one score
entry per `(category, score)` pair of the `scores` dict, then run
`adjust_autonomy` (the trailing `_save()` is disk I/O with no effect on the
scorecard). -/
def recordTaskResult (c : AgentScorecard) (success : Bool)
    (scores : List (ScoreCategory × ℚ)) : AgentScorecard :=
  adjustAutonomy
    { (if success then recordSuccessCounter c else recordFailureCounter c) with
      scores := (if success then recordSuccessCounter c else recordFailureCounter c).scores ++
        scores.map fun p => ⟨p.1, p.2⟩ }

/-! ## Memory system (`macds/core/memory.py`) -/

/-- `MemoryScope` enum. -/
inductive MemoryScope
  | working
  | project
  | skill
  | failure
deriving DecidableEq, Repr

/-- `DecayPolicy` enum. -/
inductive DecayPolicy
  | fast
  | medium
  | slow
  | very_slow
  | permanent
deriving DecidableEq, Repr

/-- `DECAY_RATES`: half-life in seconds.  The source maps `PERMANENT` to
`float('inf')`, a value `get_current_strength` never reads because it
returns early on the permanent policy; the placeholder 0 here is equally
unreachable. -/
noncomputable def decayRate : DecayPolicy → ℝ
  | .fast => 3600
  | .medium => 86400
  | .slow => 604800
  | .very_slow => 2592000
  | .permanent => 0

/-- `SCOPE_DECAY_DEFAULTS`. -/
def scopeDecayDefault : MemoryScope → DecayPolicy
  | .working => .fast
  | .project => .slow
  | .skill => .very_slow
  | .failure => .medium

/-- The access boost factor of `MemoryEntry.get_current_strength`:
`min(2.0, 1.0 + access_count * 0.1)`. -/
noncomputable def accessBoost (access_count : ℕ) : ℝ :=
  min 2 (1 + (access_count : ℝ) * (1 / 10))

/-- `MemoryEntry.get_current_strength`, as a function of the entry's decay
policy, confidence and access count and of the elapsed seconds since
`last_accessed` (`datetime.now() - self.last_accessed`). -/
noncomputable def getCurrentStrength (policy : DecayPolicy) (confidence : ℝ)
    (elapsed : ℝ) (access_count : ℕ) : ℝ :=
  if policy = .permanent then confidence
  else
    min 1 (confidence * (1 / 2 : ℝ) ^ (elapsed / decayRate policy) *
      accessBoost access_count)

/-- The content of a memory entry, as serialized by the store.  The entry
id is a content-derived fingerprint (`_generate_id` hashes the serialized
content); the fingerprint is modelled as the content itself, keeping the
property that distinct contents get distinct ids and equal contents
collide. -/
inductive MemContent
  | task (task_id : String)
  | failure (task_id : String) (reason : String) (timestamp : ℕ)
  | workflowResult (workflow_id : String) (success : Bool)
  | conflict (conflict_id : String)
  | blob (s : String)
deriving DecidableEq, Repr

/-- A stored memory entry (`MemoryEntry`); the fields the claims touch. -/
structure MemoryEntry where
  id : MemContent
  content : MemContent
  scope : MemoryScope
  source : String
  tags : List String := []
deriving DecidableEq, Repr

/-- `MemoryStore.store`: insert under the content-derived id with dict
semantics — replace the entry already holding that id, otherwise append
(the `_save()` call is disk I/O). Returns the updated entry list. -/
def memStore (m : List MemoryEntry) (content : MemContent) (scope : MemoryScope)
    (source : String) (tags : List String) : List MemoryEntry :=
  if m.any fun e => e.id == content then
    m.map fun e =>
      if e.id == content then
        { id := content, content := content, scope := scope, source := source, tags := tags }
      else e
  else
    m ++ [{ id := content, content := content, scope := scope, source := source, tags := tags }]

/-! ## Contracts (`macds/core/contracts.py`) -/

/-- `Violation`: a contract violation with a severity string
(`"error"`, `"warning"`, `"info"`). -/
structure Violation where
  rule_id : String
  severity : String
  message : String
deriving DecidableEq, Repr

/-- `ConflictRecord` from `contracts.py`.  The evidence dicts and the
resolution dict are opaque payloads, modelled as strings; timestamps are
naturals. -/
structure ConflictRecord where
  conflict_id : String
  topic : String
  agents_involved : List String
  evidence : List String
  decision_owner : String
  resolution : Option String := none
  created_at : ℕ := 0
  resolved_at : Option ℕ := none
deriving DecidableEq, Repr

/-! ## Orchestrator workflow execution (`macds/core/orchestrator.py`) -/

/-- `WorkflowStage` enum. -/
inductive WorkflowStage
  | requirements
  | architecture
  | implementation
  | review
  | build_test
  | integration
  | final_approval
deriving DecidableEq, Repr

/-- `TaskStatus` enum. -/
inductive TaskStatus
  | pending
  | running
  | completed
  | failed
  | blocked
  | escalated
deriving DecidableEq, Repr

/-- `WorkflowTask`; the fields that drive control flow. -/
structure WorkflowTask where
  status : TaskStatus := .pending
  retry_count : ℕ := 0
  max_retries : ℕ := 3
  error : Option String := none
deriving DecidableEq, Repr

/-- `FAILURE_ROUTING`: the static failure-routing table. -/
def FAILURE_ROUTING : WorkflowStage → Option WorkflowStage
  | .review => some .implementation
  | .build_test => some .implementation
  | .integration => some .implementation
  | .final_approval => some .architecture
  | _ => none

/-- `DEFAULT_WORKFLOW`, keeping stage order and dependencies (the agent
names only select which worker runs and are irrelevant to control flow). -/
def DEFAULT_WORKFLOW : List (WorkflowStage × List WorkflowStage) :=
  [(.requirements, []),
   (.architecture, [.requirements]),
   (.implementation, [.architecture]),
   (.review, [.implementation]),
   (.build_test, [.review]),
   (.integration, [.build_test]),
   (.final_approval, [.integration])]

/-- Point update of a task map, as mutating `tasks[stage]` does. -/
def setTask (tasks : WorkflowStage → WorkflowTask) (s : WorkflowStage)
    (t : WorkflowTask) : WorkflowStage → WorkflowTask :=
  fun s' => if s' = s then t else tasks s'

/-- The `failure_context` dict injected into the run context by
`_handle_failure`. -/
structure FailureContext where
  failed_stage : WorkflowStage
  error : Option String
  retry_count : ℕ
deriving DecidableEq, Repr

/-- Result of `_handle_failure`: the returned boolean plus the task map and
run context it may have mutated. -/
structure HandleResult where
  handled : Bool
  tasks : WorkflowStage → WorkflowTask
  failure_context : Option FailureContext

/-- `Orchestrator._handle_failure(stage, task, tasks, context)`.  `stage` is
the failing stage and `tasks stage` the failing task; `stageList` is the key
set of the run's `tasks` dict (the stages of the workflow definition).  The
source checks, in order: the *failing* task's retry budget, the routing
table, and membership of the target in the `tasks` dict; when routed it
resets the target task to pending, bumps its retry count, and injects the
failure context. -/
def handleFailure (stage : WorkflowStage) (stageList : List WorkflowStage)
    (tasks : WorkflowStage → WorkflowTask) (ctx : Option FailureContext) :
    HandleResult :=
  if (tasks stage).retry_count ≥ (tasks stage).max_retries then ⟨false, tasks, ctx⟩
  else
    match FAILURE_ROUTING stage with
    | none => ⟨false, tasks, ctx⟩
    | some target =>
      if target ∈ stageList then
        ⟨true,
         setTask tasks target
           { tasks target with
             status := .pending
             retry_count := (tasks target).retry_count + 1 },
         some ⟨stage, (tasks stage).error, (tasks target).retry_count + 1⟩⟩
      else ⟨false, tasks, ctx⟩

/-- The mutable state of one `run_workflow` pass: the task map, the
completed/failed stage lists, the failure context slot of the run context,
and whether the loop has been broken out of. -/
structure RunState where
  tasks : WorkflowStage → WorkflowTask
  completed : List WorkflowStage := []
  failed : List WorkflowStage := []
  failure_context : Option FailureContext := none
  halted : Bool := false

/-- One iteration of the `run_workflow` stage loop for entry
`(stage, deps)`.  `behavior` is the worker dispatch: `.ok` when
`agent.execute` returns, `.error e` when it raises (`str(e) = e`).
`halted` models the `break` after an unhandled failure: the remaining
iterations do nothing. -/
def runStep (stageList : List WorkflowStage)
    (behavior : WorkflowStage → Except String Unit)
    (st : RunState) (entry : WorkflowStage × List WorkflowStage) : RunState :=
  if st.halted then st
  else
    let stage := entry.1
    let task := st.tasks stage
    let deps_met := entry.2.all fun d => (st.tasks d).status == .completed
    if ¬ deps_met then
      { st with tasks := setTask st.tasks stage { task with status := .blocked },
                failed := st.failed ++ [stage] }
    else
      match behavior stage with
      | .ok _ =>
        { st with tasks := setTask st.tasks stage { task with status := .completed },
                  completed := st.completed ++ [stage] }
      | .error e =>
        let tasks1 := setTask st.tasks stage { task with status := .failed, error := some e }
        let hr := handleFailure stage stageList tasks1 st.failure_context
        if hr.handled then
          { st with tasks := hr.tasks, failure_context := hr.failure_context }
        else
          { st with tasks := hr.tasks, failed := st.failed ++ [stage], halted := true }

/-- The stage loop of `Orchestrator.run_workflow` over a workflow
definition, from freshly created pending tasks. -/
def runWorkflow (workflow_def : List (WorkflowStage × List WorkflowStage))
    (behavior : WorkflowStage → Except String Unit) : RunState :=
  workflow_def.foldl (runStep (workflow_def.map (·.1)) behavior)
    { tasks := fun _ => {} }

/-- `WorkflowResult.success`: `len(failed_stages) == 0`. -/
def runSuccess (st : RunState) : Bool := st.failed.isEmpty

/-! ## Orchestrator escalation and conflict resolution -/

/-- The orchestrator state touched by `escalate_conflict` and
`resolve_conflict`: the `_escalations` list, the memory store's entry list,
and the authority levels of the registered agents (`self._agents`). -/
structure OrchestratorState where
  escalations : List ConflictRecord := []
  memory : List MemoryEntry := []
  agentAuthority : String → Option ℕ := fun _ => none

/-- The `max_authority` scan of `escalate_conflict`: fold the involved
agents, keeping the largest authority of those registered. -/
def maxAuthority (st : OrchestratorState) (agents_involved : List String) : ℕ :=
  agents_involved.foldl
    (fun acc name =>
      match st.agentAuthority name with
      | some a => if a > acc then a else acc
      | none => acc)
    0

/-- `Orchestrator.escalate_conflict(topic, agents_involved, evidence)`.
`newId` stands for the fresh `uuid4` prefix and `now` for
`datetime.now()`.  `decision_owner` starts as `"ArchitectAgent"` and the
`max_authority < 10` guard can only reassign that same default, so it is
always `"ArchitectAgent"`.  The record is appended to `_escalations` and
returned; the function writes nothing to the memory store. -/
def escalateConflict (st : OrchestratorState) (newId : String) (topic : String)
    (agents_involved : List String) (evidence : List String) (now : ℕ) :
    OrchestratorState × ConflictRecord :=
  let ma := maxAuthority st agents_involved
  let decision_owner := if ma < 10 then "ArchitectAgent" else "ArchitectAgent"
  let conflict : ConflictRecord :=
    { conflict_id := newId, topic := topic, agents_involved := agents_involved,
      evidence := evidence, decision_owner := decision_owner, created_at := now }
  ({ st with escalations := st.escalations ++ [conflict] }, conflict)

/-- `Orchestrator.resolve_conflict(conflict_id, resolution)`: walk
`_escalations`, and on the first record whose id matches set its
`resolution` and `resolved_at` (whether or not it was already resolved)
and return `True`; return `False` when no record matches.  Returns the
updated list and the boolean. -/
def resolveConflict (escalations : List ConflictRecord) (conflict_id : String)
    (resolution : String) (now : ℕ) : List ConflictRecord × Bool :=
  match escalations with
  | [] => ([], false)
  | c :: rest =>
    if c.conflict_id = conflict_id then
      ({ c with resolution := some resolution, resolved_at := some now } :: rest, true)
    else
      let r := resolveConflict rest conflict_id resolution now
      (c :: r.1, r.2)

/-! ## Base agent execute wrapper (`macds/agents/base.py`) -/

/-- The per-agent state `BaseAgent.execute` can mutate: the shared memory
store's entries, this agent's scorecard in the evaluation system
(`get_scorecard(self.config.name)`), and a monotone clock supplying the
`datetime.now()` timestamps baked into stored failure contents. -/
structure AgentState where
  memory : List MemoryEntry := []
  scorecard : AgentScorecard := freshScorecard
  clock : ℕ := 0

/-- `BaseAgent._record_failure(reason)`: record a failed task result with a
zero correctness score for this agent, then store a failure memory
(`learn_from_failure`) whose content carries the task id, the reason and
the current timestamp. -/
def agentRecordFailure (agentName task_id reason : String) (st : AgentState) :
    AgentState :=
  { memory := memStore st.memory (.failure task_id reason st.clock) .failure
      agentName ["failure", "learning"],
    scorecard := recordTaskResult st.scorecard false [(.correctness, 0)],
    clock := st.clock + 1 }

/-- `BaseAgent._record_success()`: record a successful task result with
full correctness and a duration-derived efficiency score. -/
def agentRecordSuccess (agentName task_id : String) (duration : ℚ)
    (st : AgentState) : AgentState :=
  let _ := (agentName, task_id)
  { st with
    scorecard := recordTaskResult st.scorecard true
      [(.correctness, 100), (.efficiency, min 100 (100 - duration / 60 * 10))],
    clock := st.clock + 1 }

/-- The message of the `ContractViolationError` raised on output contract
violations (`str(e)` as seen by the generic handler). -/
def outputViolationMessage (ovs : List Violation) : String :=
  "Output contract violation: " ++ String.intercalate ", " (ovs.map (·.message))

/-- The outcome of `BaseAgent.execute`: the returned/raised value and the
final shared state. -/
structure ExecOutcome where
  result : Except String Unit
  state : AgentState

/-- `BaseAgent.execute(input_data)`.  `inputViolations` is
`input_data.validate()`; `implResult` is the behaviour of the
worker-specific `_execute_impl` — `.ok ovs` when it returns an output whose
`validate()` yields `ovs`, `.error e` when it raises a non-contract
exception with message `e`.  Control flow of the source:
an error-severity input violation raises before the working-memory write
and before dispatch; otherwise a working-memory task entry is stored, the
impl runs inside `try`; an error-severity output violation records a
failure, raises `ContractViolationError`, which the generic `except`
handler catches, records a second failure, and re-raises; a non-contract
impl exception is recorded once by that handler; on success
`_record_success` runs. -/
def agentExecute (agentName task_id : String) (inputViolations : List Violation)
    (implResult : Except String (List Violation)) (duration : ℚ)
    (st : AgentState) : ExecOutcome :=
  if inputViolations.any fun v => v.severity == "error" then
    { result := .error ("Input contract violation: " ++
        String.intercalate ", " (inputViolations.map (·.message))),
      state := st }
  else
    let st1 : AgentState :=
      { st with
        memory := memStore st.memory (.task task_id) .working agentName
          ["task", "current"],
        clock := st.clock + 1 }
    match implResult with
    | .error e =>
      { result := .error e, state := agentRecordFailure agentName task_id e st1 }
    | .ok ovs =>
      if ovs.any fun v => v.severity == "error" then
        let st2 := agentRecordFailure agentName task_id "output_validation_failed" st1
        let msg := outputViolationMessage ovs
        { result := .error msg, state := agentRecordFailure agentName task_id msg st2 }
      else
        { result := .ok (), state := agentRecordSuccess agentName task_id duration st1 }

/-! ## Concrete instances and derived definitions used by the claims -/

/-- The five consecutive successful `record_task_result` calls of C4, each
scoring 95 (≥ 95) on correctness and compliance. -/
def fiveHighScoreCalls : List (Bool × List (ScoreCategory × ℚ)) :=
  List.replicate 5 (true, [(.correctness, 95), (.compliance, 95)])

/-- The scorecard a fresh scorecard becomes after the five calls of C4. -/
def scorecardAfterFive : AgentScorecard :=
  fiveHighScoreCalls.foldl (fun c p => recordTaskResult c p.1 p.2) freshScorecard

/-- The scores dict of one C4 call. -/
def highCall : List (ScoreCategory × ℚ) := [(.correctness, 95), (.compliance, 95)]

/-- The score entries accumulated after `k` C4 calls. -/
def highEntries (k : ℕ) : List ScoreEntry :=
  (List.replicate k [ScoreEntry.mk .correctness 95, ScoreEntry.mk .compliance 95]).flatten

/-- The scorecard after `k` C4 calls: `k` successes, the accumulated
entries, and an unchanged autonomy level of 1. -/
def cardAfter (k : ℕ) : AgentScorecard :=
  { scores := highEntries k, total_tasks := k, successful_tasks := k,
    failed_tasks := 0, escalations := 0, autonomy_level := 1 }

/-- The stage list of the default workflow (the key set of the `tasks`
dict `run_workflow` builds from it). -/
def defaultStages : List WorkflowStage := DEFAULT_WORKFLOW.map (·.1)

/-- The task map of the C1 counterexample: a default-workflow run in which
the review task itself has accumulated `retry_count = 3` while its routing
target (implementation) has `retry_count = 0`. -/
def tasksC1 : WorkflowStage → WorkflowTask :=
  setTask (fun _ => {}) .review { status := .failed, retry_count := 3, error := some "boom" }

/-- Worker behaviour of the C2 counterexample run: the review worker
raises a `ContractViolation`, every other worker returns normally. -/
def behReviewFails : WorkflowStage → Except String Unit :=
  fun s => if s = .review then .error "ContractViolation: output contract violated" else .ok ()

/-- Worker behaviour where the requirements worker raises. -/
def behRequirementsFails : WorkflowStage → Except String Unit :=
  fun s => if s = .requirements then .error "ContractViolation: input contract violated" else .ok ()

/-- An already-resolved conflict record. -/
def resolvedRecord : ConflictRecord :=
  { conflict_id := "abc", topic := "api shape", agents_involved := ["ReviewerAgent"],
    evidence := ["evidence-1"], decision_owner := "ArchitectAgent",
    resolution := some "keep v1", created_at := 0, resolved_at := some 5 }

/-- The failure-scope entry count of a memory store. -/
def countFailureMem (m : List MemoryEntry) : ℕ :=
  m.countP fun e => e.scope == .failure

/-- The entry `MemoryStore.store` builds for a content. -/
def mkEntry (c : MemContent) (sc : MemoryScope) (src : String) (tg : List String) :
    MemoryEntry :=
  { id := c, content := c, scope := sc, source := src, tags := tg }

/-! ## Helper lemmas -/

/-- `adjust_autonomy` keeps `autonomy_level` inside `[0.2, 1.0]`. -/
theorem adjustAutonomy_mem (c : AgentScorecard)
    (h1 : 2 / 10 ≤ c.autonomy_level) (h2 : c.autonomy_level ≤ 1) :
    2 / 10 ≤ (adjustAutonomy c).autonomy_level ∧
      (adjustAutonomy c).autonomy_level ≤ 1 := by
  unfold adjustAutonomy
  split_ifs with hA hB
  · refine ⟨le_min (by norm_num) (by linarith), min_le_left _ _⟩
  · exact ⟨le_max_left _ _, max_le (by norm_num) (by linarith)⟩
  · exact ⟨h1, h2⟩

/-- `record_task_result` keeps `autonomy_level` inside `[0.2, 1.0]`. -/
theorem recordTaskResult_mem (c : AgentScorecard) (success : Bool)
    (scores : List (ScoreCategory × ℚ))
    (h1 : 2 / 10 ≤ c.autonomy_level) (h2 : c.autonomy_level ≤ 1) :
    2 / 10 ≤ (recordTaskResult c success scores).autonomy_level ∧
      (recordTaskResult c success scores).autonomy_level ≤ 1 := by
  unfold recordTaskResult
  apply adjustAutonomy_mem <;>
    cases success <;>
      simpa [recordSuccessCounter, recordFailureCounter] using (by assumption)

/-! ## Claim theorems -/

/-- C3: starting from any scorecard whose `autonomy_level` is in
`[0.2, 1.0]`, any finite sequence of `record_task_result` calls (each of
which bumps counters, appends scores and runs the `adjust_autonomy` rule)
keeps `autonomy_level` in `[0.2, 1.0]`. -/
theorem autonomy_invariant (c₀ : AgentScorecard)
    (h : 2 / 10 ≤ c₀.autonomy_level ∧ c₀.autonomy_level ≤ 1)
    (calls : List (Bool × List (ScoreCategory × ℚ))) :
    2 / 10 ≤ (calls.foldl (fun c p => recordTaskResult c p.1 p.2) c₀).autonomy_level ∧
      (calls.foldl (fun c p => recordTaskResult c p.1 p.2) c₀).autonomy_level ≤ 1 := by
  induction calls generalizing c₀ with
  | nil => exact h
  | cons p rest ih =>
    exact ih (recordTaskResult c₀ p.1 p.2) (recordTaskResult_mem c₀ p.1 p.2 h.1 h.2)

/-- Witness for C3: the invariant applied to a fresh scorecard and one
successful call. -/
theorem autonomy_invariant_witness :
    (2 / 10 ≤ freshScorecard.autonomy_level ∧ freshScorecard.autonomy_level ≤ 1) ∧
    (2 / 10 ≤ ([(true, [(ScoreCategory.correctness, (95 : ℚ))])].foldl
        (fun c p => recordTaskResult c p.1 p.2) freshScorecard).autonomy_level ∧
      ([(true, [(ScoreCategory.correctness, (95 : ℚ))])].foldl
        (fun c p => recordTaskResult c p.1 p.2) freshScorecard).autonomy_level ≤ 1) :=
  ⟨⟨by norm_num [freshScorecard], by norm_num [freshScorecard]⟩,
   autonomy_invariant freshScorecard
     ⟨by norm_num [freshScorecard], by norm_num [freshScorecard]⟩ _⟩

theorem cardAfter_step0 : recordTaskResult (cardAfter 0) true highCall = cardAfter 1 := by
  simp +decide [cardAfter, highEntries, highCall, recordTaskResult, recordSuccessCounter,
    adjustAutonomy, getOverallScore, getSuccessRate, getAverage, allCategories, weight,
    List.replicate]
  norm_num

theorem cardAfter_step1 : recordTaskResult (cardAfter 1) true highCall = cardAfter 2 := by
  simp +decide [cardAfter, highEntries, highCall, recordTaskResult, recordSuccessCounter,
    adjustAutonomy, getOverallScore, getSuccessRate, getAverage, allCategories, weight,
    List.replicate]
  norm_num

theorem cardAfter_step2 : recordTaskResult (cardAfter 2) true highCall = cardAfter 3 := by
  simp +decide [cardAfter, highEntries, highCall, recordTaskResult, recordSuccessCounter,
    adjustAutonomy, getOverallScore, getSuccessRate, getAverage, allCategories, weight,
    List.replicate]
  norm_num

theorem cardAfter_step3 : recordTaskResult (cardAfter 3) true highCall = cardAfter 4 := by
  simp +decide [cardAfter, highEntries, highCall, recordTaskResult, recordSuccessCounter,
    adjustAutonomy, getOverallScore, getSuccessRate, getAverage, allCategories, weight,
    List.replicate]
  norm_num

theorem cardAfter_step4 : recordTaskResult (cardAfter 4) true highCall = cardAfter 5 := by
  simp +decide [cardAfter, highEntries, highCall, recordTaskResult, recordSuccessCounter,
    adjustAutonomy, getOverallScore, getSuccessRate, getAverage, allCategories, weight,
    List.replicate]
  norm_num

/-- Evaluating the five-call fold. -/
theorem scorecardAfterFive_eq : scorecardAfterFive = cardAfter 5 := by
  have h0 : freshScorecard = cardAfter 0 := rfl
  have hc : [(ScoreCategory.correctness, (95 : ℚ)), (ScoreCategory.compliance, 95)] = highCall :=
    rfl
  simp only [scorecardAfterFive, fiveHighScoreCalls, List.replicate, List.foldl, h0, hc]
  rw [cardAfter_step0, cardAfter_step1, cardAfter_step2, cardAfter_step3, cardAfter_step4]

/-- C4 is false on the code: after five consecutive successful results
scoring 95 on correctness and compliance, a fresh scorecard's
`autonomy_level` is not strictly greater than its initial value (a fresh
scorecard starts at the 1.0 cap, and the weighted overall score is 77,
below the 80 raise threshold besides). -/
theorem autonomy_no_strict_increase_counterexample :
    ¬ scorecardAfterFive.autonomy_level > freshScorecard.autonomy_level := by
  rw [scorecardAfterFive_eq]
  norm_num [cardAfter, freshScorecard]

/-- C4 amended: after the five calls the autonomy level equals its initial
value (1.0, the cap). -/
theorem autonomy_after_five_equals_initial :
    scorecardAfterFive.autonomy_level = freshScorecard.autonomy_level ∧
      freshScorecard.autonomy_level = 1 := by
  rw [scorecardAfterFive_eq]
  norm_num [cardAfter, freshScorecard]

/-- The half-life of every reachable (non-permanent) decay policy is
positive. -/
theorem decayRate_pos (p : DecayPolicy) (h : p ≠ .permanent) : 0 < decayRate p := by
  cases p <;> try exact absurd rfl h
  all_goals norm_num [decayRate]

/-- The access boost factor is nonnegative. -/
theorem accessBoost_nonneg (a : ℕ) : 0 ≤ accessBoost a := by
  unfold accessBoost
  have : (0 : ℝ) ≤ 1 + (a : ℝ) * (1 / 10) := by positivity
  exact le_min (by norm_num) this

/-- C5 is false on the code as universally stated: an entry with
confidence 0.5 (inside the documented `[0,1]` range) has strength 0.5, not
1.0, at `access_count = 0` and zero elapsed time. -/
theorem strength_at_zero_counterexample :
    ¬ getCurrentStrength .medium (1 / 2) 0 0 = 1 := by
  unfold getCurrentStrength accessBoost decayRate
  rw [if_neg (by decide), zero_div, Real.rpow_zero]
  norm_num [min_def]

/-- C5 amended: for every entry with confidence in the documented `[0,1]`
range, the computed strength is monotonically non-increasing in the
elapsed time since last access (access count fixed), and at
`access_count = 0` with zero elapsed time the strength equals the entry's
confidence — hence it is exactly 1.0 only when the confidence is the
default 1.0. -/
theorem strength_monotone_and_initial (p : DecayPolicy) (conf t₁ t₂ : ℝ) (a : ℕ)
    (h0 : 0 ≤ conf) (h1 : conf ≤ 1) (ht : t₁ ≤ t₂) :
    getCurrentStrength p conf t₂ a ≤ getCurrentStrength p conf t₁ a ∧
      getCurrentStrength p conf 0 0 = conf := by
  unfold getCurrentStrength
  by_cases hp : p = .permanent
  · simp [hp]
  · simp only [hp, if_false]
    have hrate := decayRate_pos p hp
    constructor
    · refine min_le_min le_rfl ?_
      refine mul_le_mul_of_nonneg_right ?_ (accessBoost_nonneg a)
      refine mul_le_mul_of_nonneg_left ?_ h0
      exact Real.rpow_le_rpow_of_exponent_ge (by norm_num) (by norm_num)
        ((div_le_div_iff_of_pos_right hrate).mpr ht)
    · rw [zero_div, Real.rpow_zero]
      unfold accessBoost
      norm_num
      exact h1

/-- Witness for C5 amended, at a one-hour elapsed time on the medium
policy with the default confidence 1.0. -/
theorem strength_monotone_and_initial_witness :
    ((0 : ℝ) ≤ 1 ∧ (1 : ℝ) ≤ 1 ∧ (0 : ℝ) ≤ 3600) ∧
      (getCurrentStrength .medium 1 3600 0 ≤ getCurrentStrength .medium 1 0 0 ∧
        getCurrentStrength .medium 1 0 0 = 1) :=
  ⟨⟨by norm_num, by norm_num, by norm_num⟩,
   strength_monotone_and_initial .medium 1 0 3600 0 (by norm_num) (by norm_num)
     (by norm_num)⟩

/-- C6: an entry whose decay policy is permanent reports strength exactly
equal to its confidence, for every elapsed time and access count. -/
theorem strength_permanent_eq_confidence (conf elapsed : ℝ) (a : ℕ) :
    getCurrentStrength .permanent conf elapsed a = conf := by
  simp [getCurrentStrength]

/-- C1 is false on the code: `_handle_failure` checks the *failing* task's
retry budget, not the target's.  With review failing at
`retry_count = 3 = max_retries` and its target (implementation) at
`retry_count = 0`, routing returns false although the claim's condition
(no routing target, or target exhausted) is false. -/
theorem handleFailure_false_iff_counterexample :
    ¬ ((handleFailure .review defaultStages tasksC1 none).handled = false ↔
      (FAILURE_ROUTING .review = none ∨
        (tasksC1 .implementation).retry_count ≥ (tasksC1 .implementation).max_retries)) := by
  decide

/-- C1 amended: failure routing returns false exactly when the *failing*
stage's task has exhausted its own `max_retries` (default 3), or the
failing stage has no routing target in the static table, or the routing
target is absent from the run's task map; otherwise it returns true and
only prepares state — the target stage's task is reset to pending with its
retry count incremented, every other task is untouched, and the failure
context (failed stage, error, new retry count) is injected into the run
context.  It never re-runs the loop: it returns only the updated state. -/
theorem handleFailure_characterization (stage : WorkflowStage)
    (stageList : List WorkflowStage) (tasks : WorkflowStage → WorkflowTask)
    (ctx : Option FailureContext) :
    ((handleFailure stage stageList tasks ctx).handled = false ↔
      (tasks stage).retry_count ≥ (tasks stage).max_retries ∨
        FAILURE_ROUTING stage = none ∨
        (∃ t, FAILURE_ROUTING stage = some t ∧ t ∉ stageList)) ∧
    (∀ t, FAILURE_ROUTING stage = some t → t ∈ stageList →
      (tasks stage).retry_count < (tasks stage).max_retries →
      (handleFailure stage stageList tasks ctx).handled = true ∧
        (handleFailure stage stageList tasks ctx).tasks t =
          { tasks t with status := .pending, retry_count := (tasks t).retry_count + 1 } ∧
        (∀ s, s ≠ t → (handleFailure stage stageList tasks ctx).tasks s = tasks s) ∧
        (handleFailure stage stageList tasks ctx).failure_context =
          some ⟨stage, (tasks stage).error, (tasks t).retry_count + 1⟩) := by
  constructor
  · unfold handleFailure
    split_ifs with hretry
    · simp [hretry]
    · cases hroute : FAILURE_ROUTING stage with
      | none => simp [hroute, hretry]
      | some t =>
        by_cases hmem : t ∈ stageList
        · simp only [hroute, hmem, if_true]
          simp only [Bool.true_eq_false, false_iff]
          push_neg
          refine ⟨lt_of_not_le hretry, by simp, ?_⟩
          intro t' ht'
          rw [Option.some_inj] at ht'
          subst ht'
          exact hmem
        · simp only [hroute, hmem, if_false]
          simp only [true_iff]
          exact Or.inr (Or.inr ⟨t, rfl, hmem⟩)
  · intro t hroute hmem hretry
    unfold handleFailure
    rw [if_neg (not_le.mpr hretry)]
    simp only [hroute]
    rw [if_pos hmem]
    refine ⟨rfl, ?_, ?_, rfl⟩
    · simp [setTask]
    · intro s hs
      simp [setTask, hs]

/-- Witness for C1 amended: a failing review task with a fresh retry
budget routes to implementation in the default workflow. -/
theorem handleFailure_characterization_witness :
    (handleFailure .review defaultStages (fun _ => {}) none).handled = true ∧
      (handleFailure .review defaultStages (fun _ => {}) none).tasks .implementation =
        { ({} : WorkflowTask) with status := .pending, retry_count := 1 } ∧
      (∀ s, s ≠ WorkflowStage.implementation →
        (handleFailure .review defaultStages (fun _ => {}) none).tasks s = {}) ∧
      (handleFailure .review defaultStages (fun _ => {}) none).failure_context =
        some ⟨.review, ({} : WorkflowTask).error, 1⟩ :=
  (handleFailure_characterization .review defaultStages (fun _ => {}) none).2
    .implementation rfl (by decide) (by decide)

/-- C2 is false on the code: in the default workflow with A = review
(which has routing target implementation) raising a `ContractViolation`
and B = build_test depending on it, the run does report `success = False`
and B ends blocked — but A is *not* in `stages_failed`, because a failure
that routing handles is never appended to the failed list. -/
theorem run_contract_violation_counterexample :
    ¬ (runSuccess (runWorkflow DEFAULT_WORKFLOW behReviewFails) = false ∧
       WorkflowStage.review ∈ (runWorkflow DEFAULT_WORKFLOW behReviewFails).failed ∧
       ((runWorkflow DEFAULT_WORKFLOW behReviewFails).tasks .build_test).status = .blocked) := by
  decide

/-- C2 amended: in a default-workflow run where stage A's worker raises,
the result has `success = False`; when A's failure is handled by routing
(A = review), A's task ends `failed` but A is *not* in `stages_failed`,
while the dependent stage B = build_test ends `blocked` and is in
`stages_failed`; when A has no routing target (A = requirements), A is in
`stages_failed` and the run halts before its dependent B = architecture is
attempted, leaving B `pending` (not blocked). -/
theorem run_contract_violation_outcomes
    (beh beh' : WorkflowStage → Except String Unit) (e e' : String)
    (h1 : beh .requirements = .ok ()) (h2 : beh .architecture = .ok ())
    (h3 : beh .implementation = .ok ()) (h4 : beh .review = .error e)
    (h5 : beh' .requirements = .error e') :
    (runSuccess (runWorkflow DEFAULT_WORKFLOW beh) = false ∧
      WorkflowStage.review ∉ (runWorkflow DEFAULT_WORKFLOW beh).failed ∧
      ((runWorkflow DEFAULT_WORKFLOW beh).tasks .review).status = .failed ∧
      ((runWorkflow DEFAULT_WORKFLOW beh).tasks .build_test).status = .blocked ∧
      WorkflowStage.build_test ∈ (runWorkflow DEFAULT_WORKFLOW beh).failed) ∧
    (runSuccess (runWorkflow DEFAULT_WORKFLOW beh') = false ∧
      WorkflowStage.requirements ∈ (runWorkflow DEFAULT_WORKFLOW beh').failed ∧
      ((runWorkflow DEFAULT_WORKFLOW beh').tasks .architecture).status = .pending ∧
      (runWorkflow DEFAULT_WORKFLOW beh').halted = true) := by
  constructor
  · simp +decide [runWorkflow, DEFAULT_WORKFLOW, runStep, handleFailure, setTask,
      FAILURE_ROUTING, runSuccess, h1, h2, h3, h4]
  · simp +decide [runWorkflow, DEFAULT_WORKFLOW, runStep, handleFailure, setTask,
      FAILURE_ROUTING, runSuccess, h5]

/-- Witness for C2 amended, on the two concrete behaviours. -/
theorem run_contract_violation_outcomes_witness :
    (behReviewFails .requirements = .ok () ∧
      behReviewFails .review = .error "ContractViolation: output contract violated" ∧
      behRequirementsFails .requirements =
        .error "ContractViolation: input contract violated") ∧
    ((runSuccess (runWorkflow DEFAULT_WORKFLOW behReviewFails) = false ∧
      WorkflowStage.review ∉ (runWorkflow DEFAULT_WORKFLOW behReviewFails).failed ∧
      ((runWorkflow DEFAULT_WORKFLOW behReviewFails).tasks .review).status = .failed ∧
      ((runWorkflow DEFAULT_WORKFLOW behReviewFails).tasks .build_test).status = .blocked ∧
      WorkflowStage.build_test ∈ (runWorkflow DEFAULT_WORKFLOW behReviewFails).failed) ∧
    (runSuccess (runWorkflow DEFAULT_WORKFLOW behRequirementsFails) = false ∧
      WorkflowStage.requirements ∈ (runWorkflow DEFAULT_WORKFLOW behRequirementsFails).failed ∧
      ((runWorkflow DEFAULT_WORKFLOW behRequirementsFails).tasks .architecture).status = .pending ∧
      (runWorkflow DEFAULT_WORKFLOW behRequirementsFails).halted = true)) :=
  ⟨⟨rfl, rfl, rfl⟩,
   run_contract_violation_outcomes behReviewFails behRequirementsFails _ _
     rfl rfl rfl rfl rfl⟩

/-- C7 is false on the code: `escalate_conflict` appends the new
`ConflictRecord` to the run's escalation list but writes nothing to the
memory store.  On an orchestrator state with an empty memory store, the
escalation list grows while the memory store stays empty — no entry,
project-scoped or otherwise, is persisted. -/
theorem escalate_no_memory_persist_counterexample :
    ¬ (((escalateConflict {} "c1" "api shape" ["ReviewerAgent", "ImplementationAgent"]
          ["evidence-1"] 0).1.escalations.length = 1) ∧
       (escalateConflict {} "c1" "api shape" ["ReviewerAgent", "ImplementationAgent"]
          ["evidence-1"] 0).1.memory ≠ []) := by
  decide

/-- C7 amended: for every escalation, `escalate_conflict` creates a
`ConflictRecord` (with decision owner `"ArchitectAgent"`) and appends it to
the run's escalation list, but does not persist anything to the memory
store — the memory store is unchanged.  (Project-scoped persistence of a
conflict record happens only in the separate `BaseAgent.escalate` path.) -/
theorem escalate_appends_without_memory_write (st : OrchestratorState)
    (newId topic : String) (ags ev : List String) (now : ℕ) :
    (escalateConflict st newId topic ags ev now).1.escalations =
      st.escalations ++ [(escalateConflict st newId topic ags ev now).2] ∧
    (escalateConflict st newId topic ags ev now).2 =
      { conflict_id := newId, topic := topic, agents_involved := ags, evidence := ev,
        decision_owner := "ArchitectAgent", created_at := now } ∧
    (escalateConflict st newId topic ags ev now).1.memory = st.memory := by
  refine ⟨rfl, ?_, rfl⟩
  simp [escalateConflict]

/-- Walking past records that do not match leaves them unchanged and keeps
searching; this is `resolve_conflict`'s not-found case. -/
theorem resolveConflict_not_found (cs : List ConflictRecord) (cid r : String)
    (now : ℕ) (h : ∀ d ∈ cs, d.conflict_id ≠ cid) :
    resolveConflict cs cid r now = (cs, false) := by
  induction cs with
  | nil => rfl
  | cons c rest ih =>
    unfold resolveConflict
    rw [if_neg (h c (List.mem_cons_self c rest))]
    rw [ih fun d hd => h d (List.mem_cons_of_mem c hd)]

/-- `resolve_conflict` updates the first record whose id matches,
regardless of whether it already carries a resolution. -/
theorem resolveConflict_first_match (pre post : List ConflictRecord)
    (c : ConflictRecord) (cid r : String) (now : ℕ) (hc : c.conflict_id = cid)
    (hpre : ∀ d ∈ pre, d.conflict_id ≠ cid) :
    resolveConflict (pre ++ c :: post) cid r now =
      (pre ++ { c with resolution := some r, resolved_at := some now } :: post, true) := by
  induction pre with
  | nil =>
    simp only [List.nil_append]
    unfold resolveConflict
    rw [if_pos hc]
  | cons d rest ih =>
    simp only [List.cons_append]
    unfold resolveConflict
    rw [if_neg (hpre d (List.mem_cons_self d rest))]
    rw [ih fun d' hd' => hpre d' (List.mem_cons_of_mem d hd')]

/-- C8 is false on the code: calling `resolve_conflict` with the id of an
already-resolved conflict neither reports not-found nor leaves the record
unchanged — it returns `True` and overwrites the resolution in place. -/
theorem resolve_already_resolved_counterexample :
    ¬ ((resolveConflict [resolvedRecord] "abc" "switch to v2" 9).2 = false ∧
       (resolveConflict [resolvedRecord] "abc" "switch to v2" 9).1 = [resolvedRecord]) := by
  decide

/-- C8 amended: `resolve_conflict` sets `resolution` and `resolved_at` on
the first record whose id matches — whether or not that record is already
resolved — and returns true (found); only when no record carries the id
does it change nothing and report not-found (false). -/
theorem resolveConflict_behaviour (cs : List ConflictRecord) (cid r : String)
    (now : ℕ) :
    ((∀ d ∈ cs, d.conflict_id ≠ cid) → resolveConflict cs cid r now = (cs, false)) ∧
    (∀ pre post c, cs = pre ++ c :: post → c.conflict_id = cid →
      (∀ d ∈ pre, d.conflict_id ≠ cid) →
      resolveConflict cs cid r now =
        (pre ++ { c with resolution := some r, resolved_at := some now } :: post, true)) := by
  refine ⟨fun h => resolveConflict_not_found cs cid r now h, ?_⟩
  intro pre post c hcs hc hpre
  rw [hcs]
  exact resolveConflict_first_match pre post c cid r now hc hpre

/-- Witness for C8 amended: resolving the already-resolved record again
overwrites it and returns true. -/
theorem resolveConflict_behaviour_witness :
    resolveConflict [resolvedRecord] "abc" "switch to v2" 9 =
      ([{ resolvedRecord with resolution := some "switch to v2", resolved_at := some 9 }],
        true) :=
  (resolveConflict_behaviour [resolvedRecord] "abc" "switch to v2" 9).2
    [] [] resolvedRecord rfl rfl (by simp)

/-- C9: when the input envelope's validation result contains an
error-severity violation, `execute` raises a `ContractViolationError`
before dispatching to the worker-specific logic — the outcome does not
depend on the worker behaviour at all — and leaves the shared state
untouched: no memory entry is stored and no task result (counters, score
entries, autonomy) is recorded. -/
theorem execute_input_violation_no_side_effects (agentName task_id : String)
    (iv : List Violation) (implResult implResult' : Except String (List Violation))
    (duration : ℚ) (st : AgentState)
    (h : (iv.any fun v => v.severity == "error") = true) :
    (agentExecute agentName task_id iv implResult duration st).state = st ∧
    (∃ msg, (agentExecute agentName task_id iv implResult duration st).result =
      .error msg) ∧
    agentExecute agentName task_id iv implResult duration st =
      agentExecute agentName task_id iv implResult' duration st := by
  unfold agentExecute
  rw [if_pos h]
  exact ⟨rfl, ⟨_, rfl⟩, by rw [if_pos h]⟩

/-- Witness for C9: an empty requirements output's REQ-001 violation stops
an execution on a fresh state. -/
theorem execute_input_violation_no_side_effects_witness :
    (([Violation.mk "REQ-001" "error" "Requirements cannot be empty"].any
        fun v => v.severity == "error") = true) ∧
    ((agentExecute "ProductAgent" "t1"
        [Violation.mk "REQ-001" "error" "Requirements cannot be empty"]
        (.ok []) 0 {}).state = ({} : AgentState) ∧
      (∃ msg, (agentExecute "ProductAgent" "t1"
        [Violation.mk "REQ-001" "error" "Requirements cannot be empty"]
        (.ok []) 0 {}).result = .error msg) ∧
      agentExecute "ProductAgent" "t1"
        [Violation.mk "REQ-001" "error" "Requirements cannot be empty"]
        (.ok []) 0 {} =
        agentExecute "ProductAgent" "t1"
          [Violation.mk "REQ-001" "error" "Requirements cannot be empty"]
          (.error "worker crash") 0 {}) :=
  ⟨rfl, execute_input_violation_no_side_effects "ProductAgent" "t1" _ _ _ 0 {} rfl⟩

/-- Storing a content whose id is absent appends one entry. -/
theorem memStore_fresh (m : List MemoryEntry) (c : MemContent) (sc : MemoryScope)
    (src : String) (tg : List String) (h : ∀ e ∈ m, e.id ≠ c) :
    memStore m c sc src tg = m ++ [mkEntry c sc src tg] := by
  unfold memStore mkEntry
  rw [if_neg]
  simp only [List.any_eq_true, beq_iff_eq, not_exists, not_and]
  exact h

/-- `adjust_autonomy` does not touch the task counters. -/
theorem adjustAutonomy_counters (c : AgentScorecard) :
    (adjustAutonomy c).total_tasks = c.total_tasks ∧
      (adjustAutonomy c).failed_tasks = c.failed_tasks := by
  unfold adjustAutonomy
  split_ifs <;> exact ⟨rfl, rfl⟩

/-- A failed `record_task_result` call bumps `total_tasks` and
`failed_tasks` by exactly one. -/
theorem recordTaskResult_false_counters (c : AgentScorecard)
    (scores : List (ScoreCategory × ℚ)) :
    (recordTaskResult c false scores).total_tasks = c.total_tasks + 1 ∧
      (recordTaskResult c false scores).failed_tasks = c.failed_tasks + 1 := by
  unfold recordTaskResult
  refine ⟨((adjustAutonomy_counters _).1).trans ?_, ((adjustAutonomy_counters _).2).trans ?_⟩ <;>
    simp [recordFailureCounter]

/-- `_record_failure` appends one failure memory (when its id is fresh),
bumps both counters by one, and advances the clock. -/
theorem agentRecordFailure_effects (agentName task_id reason : String)
    (st : AgentState)
    (hfresh : ∀ en ∈ st.memory, en.id ≠ MemContent.failure task_id reason st.clock) :
    (agentRecordFailure agentName task_id reason st).memory =
      st.memory ++
        [mkEntry (.failure task_id reason st.clock) .failure agentName
          ["failure", "learning"]] ∧
    (agentRecordFailure agentName task_id reason st).scorecard.total_tasks =
      st.scorecard.total_tasks + 1 ∧
    (agentRecordFailure agentName task_id reason st).scorecard.failed_tasks =
      st.scorecard.failed_tasks + 1 ∧
    (agentRecordFailure agentName task_id reason st).clock = st.clock + 1 := by
  unfold agentRecordFailure
  exact ⟨memStore_fresh st.memory _ _ _ _ hfresh,
    (recordTaskResult_false_counters st.scorecard _).1,
    (recordTaskResult_false_counters st.scorecard _).2, rfl⟩

/-- C10: with a clean input envelope, an execution whose worker output
fails validation with an error-severity violation runs `_record_failure`
twice (once before the `ContractViolationError` is raised and once in the
generic handler that re-raises it), so `total_tasks` and `failed_tasks`
each grow by exactly 2 and two failure memories are stored; a non-contract
worker exception grows them by exactly 1 with one failure memory.  The
freshness hypotheses say the stored ids are not already present (contents
embed the monotone clock, so re-executions never collide). -/
theorem execute_failure_double_recording (agentName task_id : String)
    (iv : List Violation) (duration : ℚ) (st : AgentState)
    (hin : (iv.any fun v => v.severity == "error") = false) :
    (∀ ovs : List Violation, (ovs.any fun v => v.severity == "error") = true →
      (∀ en ∈ st.memory, en.id ≠ MemContent.task task_id ∧
        en.id ≠ MemContent.failure task_id "output_validation_failed" (st.clock + 1) ∧
        en.id ≠ MemContent.failure task_id (outputViolationMessage ovs) (st.clock + 2)) →
      (agentExecute agentName task_id iv (.ok ovs) duration st).state.scorecard.total_tasks =
          st.scorecard.total_tasks + 2 ∧
        (agentExecute agentName task_id iv (.ok ovs) duration st).state.scorecard.failed_tasks =
          st.scorecard.failed_tasks + 2 ∧
        countFailureMem (agentExecute agentName task_id iv (.ok ovs) duration st).state.memory =
          countFailureMem st.memory + 2 ∧
        (agentExecute agentName task_id iv (.ok ovs) duration st).result =
          .error (outputViolationMessage ovs)) ∧
    (∀ e : String,
      (∀ en ∈ st.memory, en.id ≠ MemContent.task task_id ∧
        en.id ≠ MemContent.failure task_id e (st.clock + 1)) →
      (agentExecute agentName task_id iv (.error e) duration st).state.scorecard.total_tasks =
          st.scorecard.total_tasks + 1 ∧
        (agentExecute agentName task_id iv (.error e) duration st).state.scorecard.failed_tasks =
          st.scorecard.failed_tasks + 1 ∧
        countFailureMem (agentExecute agentName task_id iv (.error e) duration st).state.memory =
          countFailureMem st.memory + 1 ∧
        (agentExecute agentName task_id iv (.error e) duration st).result = .error e) := by
  have hworking : ∀ (m : List MemoryEntry), (∀ en ∈ m, en.id ≠ MemContent.task task_id) →
      memStore m (.task task_id) .working agentName ["task", "current"] =
        m ++ [mkEntry (.task task_id) .working agentName ["task", "current"]] :=
    fun m hm => memStore_fresh m _ _ _ _ hm
  constructor
  · intro ovs hovs hfresh
    unfold agentExecute
    rw [if_neg (by simp [hin])]
    dsimp only
    rw [if_pos hovs]
    rw [hworking st.memory fun en hen => (hfresh en hen).1]
    have hf1 := agentRecordFailure_effects agentName task_id "output_validation_failed"
      { st with
        memory := st.memory ++ [mkEntry (.task task_id) .working agentName ["task", "current"]]
        clock := st.clock + 1 }
      (by
        intro en hen
        rcases List.mem_append.mp hen with h | h
        · exact ((hfresh en h).2.1)
        · simp only [List.mem_singleton] at h
          subst h
          simp [mkEntry])
    obtain ⟨hm1, ht1, hfl1, hc1⟩ := hf1
    have hf2 := agentRecordFailure_effects agentName task_id (outputViolationMessage ovs)
      (agentRecordFailure agentName task_id "output_validation_failed"
        { st with
          memory := st.memory ++
            [mkEntry (.task task_id) .working agentName ["task", "current"]]
          clock := st.clock + 1 })
      (by
        intro en hen
        rw [hm1] at hen
        rw [hc1]
        rcases List.mem_append.mp hen with h | h
        · rcases List.mem_append.mp h with h' | h'
          · exact ((hfresh en h').2.2)
          · simp only [List.mem_singleton] at h'
            subst h'
            simp [mkEntry]
        · simp only [List.mem_singleton] at h
          subst h
          simp [mkEntry])
    obtain ⟨hm2, ht2, hfl2, _⟩ := hf2
    refine ⟨?_, ?_, ?_, rfl⟩
    · rw [ht2, ht1]
    · rw [hfl2, hfl1]
    · rw [hc1] at hm2
      rw [countFailureMem, hm2, hm1]
      simp [List.countP_append, List.countP_cons, countFailureMem, mkEntry]
  · intro e hfresh
    unfold agentExecute
    rw [if_neg (by simp [hin])]
    dsimp only
    rw [hworking st.memory fun en hen => (hfresh en hen).1]
    have hf1 := agentRecordFailure_effects agentName task_id e
      { st with
        memory := st.memory ++ [mkEntry (.task task_id) .working agentName ["task", "current"]]
        clock := st.clock + 1 }
      (by
        intro en hen
        rcases List.mem_append.mp hen with h | h
        · exact ((hfresh en h).2)
        · simp only [List.mem_singleton] at h
          subst h
          simp [mkEntry])
    obtain ⟨hm1, ht1, hfl1, _⟩ := hf1
    refine ⟨ht1, hfl1, ?_, rfl⟩
    rw [countFailureMem, hm1]
    simp [List.countP_append, List.countP_cons, countFailureMem, mkEntry]

/-- Witness for C10: a failed build/test output (error-severity BUILD-001
violation) double-records against a fresh agent state, and a plain worker
crash records once. -/
theorem execute_failure_double_recording_witness :
    ((([] : List Violation).any fun v => v.severity == "error") = false) ∧
    (([Violation.mk "BUILD-001" "error" "Build failed"].any
        fun v => v.severity == "error") = true) ∧
    ((agentExecute "BuildTestAgent" "t1" []
        (.ok [Violation.mk "BUILD-001" "error" "Build failed"]) 0 {}).state.scorecard.total_tasks =
      ({} : AgentState).scorecard.total_tasks + 2 ∧
     (agentExecute "BuildTestAgent" "t1" []
        (.ok [Violation.mk "BUILD-001" "error" "Build failed"]) 0 {}).state.scorecard.failed_tasks =
      ({} : AgentState).scorecard.failed_tasks + 2 ∧
     countFailureMem (agentExecute "BuildTestAgent" "t1" []
        (.ok [Violation.mk "BUILD-001" "error" "Build failed"]) 0 {}).state.memory =
      countFailureMem ({} : AgentState).memory + 2 ∧
     (agentExecute "BuildTestAgent" "t1" []
        (.ok [Violation.mk "BUILD-001" "error" "Build failed"]) 0 {}).result =
      .error (outputViolationMessage [Violation.mk "BUILD-001" "error" "Build failed"])) ∧
    ((agentExecute "BuildTestAgent" "t1" [] (.error "worker crash") 0
        {}).state.scorecard.total_tasks = ({} : AgentState).scorecard.total_tasks + 1 ∧
     (agentExecute "BuildTestAgent" "t1" [] (.error "worker crash") 0
        {}).state.scorecard.failed_tasks = ({} : AgentState).scorecard.failed_tasks + 1 ∧
     countFailureMem (agentExecute "BuildTestAgent" "t1" [] (.error "worker crash") 0
        {}).state.memory = countFailureMem ({} : AgentState).memory + 1 ∧
     (agentExecute "BuildTestAgent" "t1" [] (.error "worker crash") 0 {}).result =
      .error "worker crash") :=
  ⟨rfl, rfl,
   (execute_failure_double_recording "BuildTestAgent" "t1" [] 0 {} rfl).1
     [Violation.mk "BUILD-001" "error" "Build failed"] rfl (by simp),
   (execute_failure_double_recording "BuildTestAgent" "t1" [] 0 {} rfl).2
     "worker crash" (by simp)⟩

end MACDS
